import Mathlib

/-!
Verification of the Forge backend (src-tauri): a shallow embedding of the
external-process execution facade, the compression-level lookup tables, path
derivation, rotation validation, the video-to-GIF pipeline, ffprobe metadata
collection, and text replacement, together with theorems settling the
specification claims.

Conventions of the embedding:
* Rust `std::process::Output` is modelled at the text level: `status.success()`
  becomes a `Bool`, and the captured stdout/stderr byte buffers are carried as
  the strings they decode to (`String::from_utf8_lossy` on stderr is the
  identity at this level of abstraction; the fallible `String::from_utf8` on
  stdout is modelled as an explicit `Option`-valued decode parameter).
* The OS-level `Command::output()` call is an external effect; functions that
  perform it take an `os : Command → Except String Output` parameter giving
  the outcome of running a given invocation.  The `Command` value records the
  program name and the ordered list of separate argument strings, exactly the
  data `std::process::Command` hands to the operating system.
* Rust machine integers that never overflow in the modelled code (`u8`
  compression ordinals, `u32` fps/width) are `Nat`; the `i32` rotation degrees
  is `Int`, with Rust's truncating `%` rendered as `Int.tmod`.
* Filesystem writes and deletes are not performed; instead each model returns
  enough of the action trace (e.g. whether the palette file was removed,
  which `Rotate` entries were written) for the claims to be stated.
-/

namespace Forge

/-- Captured result of a finished process, from `std::process::Output`:
exit-status success flag plus captured stdout and stderr (text level). -/
structure Output where
  success : Bool
  stdout : String
  stderr : String
deriving DecidableEq, Repr

/-- `std::process::Command` as the data handed to the OS: a program name and
an ordered list of separate argument strings.  There is no field for a joined
shell line: arguments are never concatenated or shell-interpreted. -/
structure Command where
  program : String
  argv : List String
deriving DecidableEq, Repr

/-- `Command::new(p)`: program `p`, no arguments yet. -/
def Command.new (p : String) : Command :=
  { program := p, argv := [] }

/-- `Command::args(xs)`: append `xs` to the argument list, each element kept
as its own argument string. -/
def Command.args (c : Command) (xs : List String) : Command :=
  { c with argv := c.argv ++ xs }

/-- `Command::arg(x)`: append the single argument `x`. -/
def Command.arg (c : Command) (x : String) : Command :=
  { c with argv := c.argv ++ [x] }

/-- From `utils/command_executor.rs` (`validate_output`): success iff the exit
status is success; otherwise an error embedding the captured stderr. -/
def validate_output (output : Output) : Except String Unit :=
  if !output.success then
    Except.error ("Command failed: " ++ output.stderr)
  else
    Except.ok ()

/-- The invocation built by `FfmpegExecutor::execute{,_strings}`:
`Command::new("ffmpeg").args(args)`. -/
def ffmpeg_invocation (args : List String) : Command :=
  (Command.new "ffmpeg").args args

/-- The invocation built by `FfprobeExecutor::execute{,_strings}`. -/
def ffprobe_invocation (args : List String) : Command :=
  (Command.new "ffprobe").args args

/-- The invocation built by `GhostscriptExecutor::execute{,_strings}`. -/
def ghostscript_invocation (args : List String) : Command :=
  (Command.new "gs").args args

/-- `FfmpegExecutor::execute`: run `ffmpeg` with the given args via the OS
(`os` gives the outcome of `Command::output()`); a spawn failure `e` is mapped
to the tool-unavailable message, a completed run is returned as captured. -/
def FfmpegExecutor.execute (os : Command → Except String Output)
    (args : List String) : Except String Output :=
  match os (ffmpeg_invocation args) with
  | Except.error e =>
      Except.error ("Failed to execute ffmpeg: " ++ e ++ ". Make sure ffmpeg is installed.")
  | Except.ok o => Except.ok o

/-- `FfmpegExecutor::execute_strings`: identical to `execute` (Rust only
differs in the argument ownership type). -/
def FfmpegExecutor.execute_strings (os : Command → Except String Output)
    (args : List String) : Except String Output :=
  match os (ffmpeg_invocation args) with
  | Except.error e =>
      Except.error ("Failed to execute ffmpeg: " ++ e ++ ". Make sure ffmpeg is installed.")
  | Except.ok o => Except.ok o

/-- `FfprobeExecutor::execute`. -/
def FfprobeExecutor.execute (os : Command → Except String Output)
    (args : List String) : Except String Output :=
  match os (ffprobe_invocation args) with
  | Except.error e =>
      Except.error ("Failed to execute ffprobe: " ++ e ++ ". Make sure ffmpeg is installed.")
  | Except.ok o => Except.ok o

/-- `GhostscriptExecutor::execute`. -/
def GhostscriptExecutor.execute (os : Command → Except String Output)
    (args : List String) : Except String Output :=
  match os (ghostscript_invocation args) with
  | Except.error e =>
      Except.error ("Failed to execute ghostscript: " ++ e ++ ". Is it installed? Error: " ++ e)
  | Except.ok o => Except.ok o

/-- `FfmpegExecutor::check_available`: probe `ffmpeg -version`. -/
def FfmpegExecutor.check_available (os : Command → Except String Output) : Bool :=
  match os ((Command.new "ffmpeg").arg "-version") with
  | Except.ok _ => true
  | Except.error _ => false

/-! ## Compression-level lookup tables -/

/-- From `utils/compression.rs`: the five quality tiers. -/
inductive CompressionLevel where
  | Lossless
  | NearLossless
  | HighQuality
  | MediumQuality
  | LowQuality
deriving DecidableEq, Repr

/-- `CompressionLevel::from_u8`: ordinals 0–4 map to their tier, anything else
falls back to `HighQuality`. -/
def CompressionLevel.from_u8 (level : Nat) : CompressionLevel :=
  match level with
  | 0 => CompressionLevel.Lossless
  | 1 => CompressionLevel.NearLossless
  | 2 => CompressionLevel.HighQuality
  | 3 => CompressionLevel.MediumQuality
  | 4 => CompressionLevel.LowQuality
  | _ => CompressionLevel.HighQuality

/-- From `commands/video.rs` (`get_crf_value`): CRF per ordinal, default 23. -/
def get_crf_value (level : Nat) : Nat :=
  match level with
  | 0 => 0
  | 1 => 17
  | 2 => 23
  | 3 => 28
  | 4 => 35
  | _ => 23

/-- From `commands/pdf.rs` (`get_ghostscript_settings`): the `-dPDFSETTINGS`
profile per ordinal, default `/printer`. -/
def get_ghostscript_settings (level : Nat) : String :=
  match level with
  | 0 => "/default"
  | 1 => "/prepress"
  | 2 => "/printer"
  | 3 => "/ebook"
  | 4 => "/screen"
  | _ => "/printer"

/-! ## Output-path derivation (`utils/path_utils.rs`, `compress_video`,
`compress_pdf`).

`Path::file_stem`, `Path::extension` and `Path::parent` are std-library calls;
the embedding takes their (optional) results as inputs and models the
`format!` concatenation performed by the code. -/

/-- `generate_output_path` from `utils/path_utils.rs`:
`format!("{}/{}_{}.{}", parent, stem, suffix, extension)` with stem fallback
`"output"` and parent fallback `""`. -/
def generate_output_path (stem : Option String) (parentDir : Option String)
    (suffix extension : String) : String :=
  parentDir.getD "" ++ "/" ++ stem.getD "output" ++ "_" ++ suffix ++ "." ++ extension

/-- Output-path derivation inside `commands/video.rs` (`compress_video`):
`format!("{}/{}_compressed.{}", parent, stem, extension)` with fallbacks
`"compressed"` (stem), `"mp4"` (extension), `""` (parent). -/
def compress_video_output_path (stem : Option String) (extension : Option String)
    (parentDir : Option String) : String :=
  parentDir.getD "" ++ "/" ++ stem.getD "compressed" ++ "_compressed." ++ extension.getD "mp4"

/-- Output-path derivation inside `commands/pdf.rs` (`compress_pdf`):
`format!("{}/{}_compressed.pdf", parent, stem)` with fallbacks `"compressed"`
(stem) and `""` (parent). -/
def compress_pdf_output_path (stem : Option String) (parentDir : Option String) : String :=
  parentDir.getD "" ++ "/" ++ stem.getD "compressed" ++ "_compressed.pdf"

/-! ## Rotation (`commands/image.rs`, `commands/pdf.rs`).

The image codec library (`image::open`, `rotate90/180/270`, `save`,
`write_to`) and the PDF object model (`Document::load`, `save`) are external;
the embedding takes them as parameters and models the control flow of the
command functions.  The returned `Bool` of `rotate_image` records whether the
save of the output file was reached. -/

/-- The rotation the image library is asked to perform. -/
inductive Rotation where
  | r90
  | r180
  | r270
deriving DecidableEq, Repr

/-- The `match degrees { 90 | 180 | 270 | _ => Err }` validation shared by
`rotate_image` and `rotate_image_preview`. -/
def rotation_of_degrees (degrees : Int) : Except String Rotation :=
  if degrees = 90 then Except.ok Rotation.r90
  else if degrees = 180 then Except.ok Rotation.r180
  else if degrees = 270 then Except.ok Rotation.r270
  else Except.error "Only 90, 180, and 270 degree rotations are supported"

/-- `rotate_image` from `commands/image.rs`: open the input, validate the
degrees by exhaustive match, rotate, save.  Returns the result together with
whether the output save was reached. -/
def rotate_image {Img : Type} (openResult : Except String Img) (degrees : Int)
    (rot : Img → Rotation → Img) (save : Img → Except String Unit) :
    Except String String × Bool :=
  match openResult with
  | Except.error e => (Except.error ("Failed to open image: " ++ e), false)
  | Except.ok img =>
    match rotation_of_degrees degrees with
    | Except.error e => (Except.error e, false)
    | Except.ok r =>
      match save (rot img r) with
      | Except.error e => (Except.error ("Failed to save rotated image: " ++ e), true)
      | Except.ok _ => (Except.ok "Image rotated successfully", true)

/-- `rotate_image_preview` from `commands/image.rs`: open, validate, rotate,
encode to an in-memory PNG buffer (no file written). -/
def rotate_image_preview {Img : Type} (openResult : Except String Img)
    (degrees : Int) (rot : Img → Rotation → Img)
    (encodePng : Img → Except String (List Nat)) : Except String (List Nat) :=
  match openResult with
  | Except.error e => Except.error ("Failed to open image: " ++ e)
  | Except.ok img =>
    match rotation_of_degrees degrees with
    | Except.error e => Except.error e
    | Except.ok r =>
      match encodePng (rot img r) with
      | Except.error e => Except.error ("Failed to encode image: " ++ e)
      | Except.ok buf => Except.ok buf

/-- A loaded PDF document, reduced to what `rotate_pdf` consumes:
`get_pages()` yields page numbers `1..=pageCount`. -/
structure PdfDoc where
  pageCount : Nat
deriving DecidableEq, Repr

/-- `rotate_pdf` from `commands/pdf.rs`: load, compute `degrees % 360`
(Rust truncating remainder, `Int.tmod`), set the `Rotate` entry of every
selected page to it, save.  There is no validation of `degrees` anywhere.
Returns the result together with the list of `(page, Rotate value)` writes. -/
def rotate_pdf (loadResult : Except String PdfDoc) (degrees : Int)
    (page_numbers : Option (List Nat)) (save : Except String Unit) :
    Except String String × List (Nat × Int) :=
  match loadResult with
  | Except.error e => (Except.error ("Failed to load PDF: " ++ e), [])
  | Except.ok doc =>
    let rotation := Int.tmod degrees 360
    let pages_to_rotate : List Nat :=
      match page_numbers with
      | some ns => ns
      | none => (List.range doc.pageCount).map (fun i => i + 1)
    let writes := ((List.range doc.pageCount).map (fun i => i + 1)).filterMap
      (fun p => if p ∈ pages_to_rotate then some (p, rotation) else none)
    match save with
    | Except.error e => (Except.error ("Failed to save rotated PDF: " ++ e), writes)
    | Except.ok _ => (Except.ok "PDF rotated successfully", writes)

/-! ## `video_to_gif` (`commands/video.rs`) -/

/-- Everything observable about one `video_to_gif` call: its result, whether
`std::fs::remove_file(palette_path)` was reached, and the two ffmpeg
invocations it builds. -/
structure GifRun where
  result : Except String String
  paletteRemoved : Bool
  paletteCmd : Command
  gifCmd : Command
deriving Repr

/-- The control flow of `video_to_gif` over the outcomes of its two ffmpeg
steps: every early `return Err` path skips the
`std::fs::remove_file(palette_path)` cleanup, which runs only after the GIF
step succeeds. -/
def gif_outcome (paletteStep gifStep : Except String Output) :
    Except String String × Bool :=
  match paletteStep with
  | Except.error e => (Except.error ("Failed to generate palette: " ++ e), false)
  | Except.ok pout =>
    if !pout.success then
      (Except.error ("Palette generation error: " ++ pout.stderr), false)
    else
      match gifStep with
      | Except.error e => (Except.error ("Failed to create GIF: " ++ e), false)
      | Except.ok gout =>
        if !gout.success then
          (Except.error ("GIF creation error: " ++ gout.stderr), false)
        else
          (Except.ok "Video converted to GIF successfully", true)

/-- `video_to_gif` from `commands/video.rs`: defaults (`fps` 10, `width` 480),
the palette and GIF filter strings, the two ffmpeg invocations, and the
two-step run with cleanup as in `gif_outcome`. -/
def video_to_gif (input_path output_path : String) (fps width : Option Nat)
    (run : Command → Except String Output) : GifRun :=
  let fps_value := fps.getD 10
  let width_value := width.getD 480
  let palette_filter :=
    "fps=" ++ toString fps_value ++ ",scale=" ++ toString width_value
      ++ ":-1:flags=lanczos,palettegen"
  let gif_filter :=
    "fps=" ++ toString fps_value ++ ",scale=" ++ toString width_value
      ++ ":-1:flags=lanczos[x];[x][1:v]paletteuse"
  let palette_path := "/tmp/palette.png"
  let paletteCmd := (Command.new "ffmpeg").args
    ["-i", input_path, "-vf", palette_filter, "-y", palette_path]
  let gifCmd := (Command.new "ffmpeg").args
    ["-i", input_path, "-i", palette_path, "-lavfi", gif_filter, "-y", output_path]
  let outcome := gif_outcome (run paletteCmd) (run gifCmd)
  { result := outcome.1, paletteRemoved := outcome.2,
    paletteCmd := paletteCmd, gifCmd := gifCmd }

/-! ## `get_video_metadata` (`commands/video.rs`).

`serde_json::Value` is embedded as `Json` (numbers carried as the decimal
rendering `Number::to_string` would produce); `Value`'s compact `Display`
serializer is `Json.dump`.  `std::fs::metadata` (with the chrono-formatted
timestamps), the ffprobe run, `String::from_utf8` on the captured stdout and
`serde_json::from_str` are external effects taken as parameters. -/

/-- Embedded `serde_json::Value`. -/
inductive Json where
  | null
  | bool (b : Bool)
  | num (rendered : String)
  | str (s : String)
  | arr (elems : List Json)
  | obj (fields : List (String × Json))
deriving Repr

mutual

/-- `serde_json::Value::to_string()`: compact serialization (string escaping
beyond quote and backslash elided; within `get_video_metadata` this is only
ever applied to scalars via `extract_value`'s catch-all arm, which the code
never reaches with a container). -/
def Json.dump : Json → String
  | Json.null => "null"
  | Json.bool true => "true"
  | Json.bool false => "false"
  | Json.num r => r
  | Json.str s => "\"" ++ s ++ "\""
  | Json.arr xs => "[" ++ Json.dumpList xs ++ "]"
  | Json.obj fs => "\x7b" ++ Json.dumpObj fs ++ "\x7d"

/-- Comma-separated serialization of array elements. -/
def Json.dumpList : List Json → String
  | [] => ""
  | [x] => Json.dump x
  | x :: y :: rest => Json.dump x ++ "," ++ Json.dumpList (y :: rest)

/-- Comma-separated serialization of object fields. -/
def Json.dumpObj : List (String × Json) → String
  | [] => ""
  | [(k, v)] => "\"" ++ k ++ "\":" ++ Json.dump v
  | (k, v) :: f :: rest =>
      "\"" ++ k ++ "\":" ++ Json.dump v ++ "," ++ Json.dumpObj (f :: rest)

end

/-- `val.is_object() || val.is_array()`. -/
def Json.isContainer : Json → Bool
  | Json.arr _ => true
  | Json.obj _ => true
  | _ => false

/-- The nested `extract_value` helper of `get_video_metadata`. -/
def extract_value : Json → String
  | Json.str s => s
  | Json.num n => n
  | Json.bool b => if b then "true" else "false"
  | Json.null => "null"
  | v => Json.dump v

/-- `HashMap::insert`: replace the value at an existing key, otherwise add
the binding (iteration order of the Rust map is unspecified; the model keeps
insertion order). -/
def insertMap (m : List (String × String)) (k v : String) : List (String × String) :=
  if m.any (fun p => p.1 = k) then
    m.map (fun p => if p.1 = k then (k, v) else p)
  else
    m ++ [(k, v)]

mutual

/-- The nested `flatten_json` helper of `get_video_metadata`. -/
def flatten_json (pfx : String) : Json → List (String × String) → List (String × String)
  | Json.obj fields, m => flattenFields pfx fields m
  | Json.arr elems, m => flattenElems pfx 0 elems m
  | j, m => insertMap m pfx (extract_value j)

/-- The `Object` arm of `flatten_json`: fold over the fields in order. -/
def flattenFields (pfx : String) : List (String × Json) → List (String × String) →
    List (String × String)
  | [], m => m
  | (key, val) :: rest, m =>
    let new_key := if pfx.isEmpty then key else pfx ++ "." ++ key
    let m2 := if val.isContainer then flatten_json new_key val m
              else insertMap m new_key (extract_value val)
    flattenFields pfx rest m2

/-- The `Array` arm of `flatten_json`: fold over the elements with their
enumeration index. -/
def flattenElems (pfx : String) (idx : Nat) : List Json → List (String × String) →
    List (String × String)
  | [], m => m
  | val :: rest, m =>
    let new_key := pfx ++ "[" ++ toString idx ++ "]"
    let m2 := if val.isContainer then flatten_json new_key val m
              else insertMap m new_key (extract_value val)
    flattenElems pfx (idx + 1) rest m2

end

/-- Result of `std::fs::metadata` plus the chrono-formatted timestamps. -/
structure FsMeta where
  len : Nat
  created : Option String
  modified : Option String
deriving DecidableEq, Repr

/-- The `VideoMetadata` payload of `get_video_metadata`. -/
structure VideoMetadata where
  file_size : Nat
  file_created : Option String
  file_modified : Option String
  all_metadata : List (String × String)
deriving Repr

/-- The population of `all_metadata` in `get_video_metadata`: starts empty
and is filled only when the ffprobe invocation succeeded, its exit status is
success, its stdout is valid UTF-8 and parses as JSON. -/
def probe_metadata (probe : Except String Output)
    (utf8 : String → Option String) (parse : String → Option Json) :
    List (String × String) :=
  match probe with
  | Except.ok output =>
    if output.success then
      match utf8 output.stdout with
      | some json_str =>
        match parse json_str with
        | some json => flatten_json "" json []
        | none => []
      | none => []
    else []
  | Except.error _ => []

/-- `get_video_metadata` from `commands/video.rs`: fails only when reading the
input file's filesystem metadata fails; the ffprobe result, however it turns
out, only determines `all_metadata`. -/
def get_video_metadata (fsMeta : Except String FsMeta)
    (probe : Except String Output) (utf8 : String → Option String)
    (parse : String → Option Json) : Except String VideoMetadata :=
  match fsMeta with
  | Except.error e => Except.error ("Failed to get file metadata: " ++ e)
  | Except.ok m =>
    Except.ok { file_size := m.len, file_created := m.created,
                file_modified := m.modified,
                all_metadata := probe_metadata probe utf8 parse }

/-- The three ffprobe failure modes named by claim C8: spawn failure,
non-zero exit, or unparseable output (invalid UTF-8 or invalid JSON). -/
def ffprobe_unusable (probe : Except String Output)
    (utf8 : String → Option String) (parse : String → Option Json) : Bool :=
  match probe with
  | Except.error _ => true
  | Except.ok output =>
    if output.success then
      match utf8 output.stdout with
      | some json_str => (parse json_str).isNone
      | none => true
    else true

/-! ## Text replacement (`commands/text.rs`).

Rust `String`s are modelled as `List Char`; `str::replace` (leftmost-first,
non-overlapping occurrence replacement, per `match_indices`) is implemented
directly. -/

/-- `str::replace` for a nonempty pattern `fh :: ft`: scan left to right;
at a match emit the replacement and resume after the matched occurrence. -/
def replaceAux (fh : Char) (ft : List Char) (repl : List Char) :
    List Char → List Char
  | [] => []
  | c :: rest =>
    if c :: rest.take ft.length = fh :: ft then
      repl ++ replaceAux fh ft repl (rest.drop ft.length)
    else
      c :: replaceAux fh ft repl rest
termination_by l => l.length
decreasing_by
  all_goals simp [List.length_drop]
  omega

/-- `str::replace` for the empty pattern: it matches at every character
boundary (never reached from `replace_all_text`, which guards on emptiness).
-/
def emptyPatternReplace (repl : List Char) : List Char → List Char
  | [] => repl
  | c :: rest => repl ++ c :: emptyPatternReplace repl rest

/-- Rust `str::replace`. -/
def rustReplace (text find repl : List Char) : List Char :=
  match find with
  | [] => emptyPatternReplace repl text
  | fh :: ft => replaceAux fh ft repl text

/-- `replace_all_text` from `commands/text.rs`: reject an empty find string,
otherwise `text.replace(&find, &replace)`. -/
def replace_all_text (text find repl : List Char) : Except String (List Char) :=
  if find.isEmpty then
    Except.error "Find string cannot be empty"
  else
    Except.ok (rustReplace text find repl)

/-- Modelled from the spec side of claim C9 ("every occurrence of the find
string in the text replaced"): split the text at the leftmost-first
non-overlapping occurrences of the (nonempty) find string `fh :: ft`. -/
def splitOnFind (fh : Char) (ft : List Char) : List Char → List (List Char)
  | [] => [[]]
  | c :: rest =>
    if c :: rest.take ft.length = fh :: ft then
      [] :: splitOnFind fh ft (rest.drop ft.length)
    else
      match splitOnFind fh ft rest with
      | [] => [[c]]
      | g :: gs => (c :: g) :: gs
termination_by l => l.length
decreasing_by
  all_goals simp [List.length_drop]
  omega

/-- Join the pieces between occurrences with the replacement string: the
spec-level statement of "every occurrence replaced". -/
def joinWith (sep : List Char) : List (List Char) → List Char
  | [] => []
  | [x] => x
  | x :: y :: rest => x ++ sep ++ joinWith sep (y :: rest)

end Forge

/-! ## Claim C1: output validator -/

/-- C1: `validate_output` succeeds iff the exit status indicates success, and
for a non-zero exit status it fails with a message containing the captured
standard-error text. -/
theorem validate_output_success_iff_and_embeds_stderr (o : Forge.Output) :
    (Forge.validate_output o = Except.ok () ↔ o.success = true) ∧
    (o.success = false →
      ∃ pre post, Forge.validate_output o = Except.error (pre ++ o.stderr ++ post)) := by
  constructor
  · constructor
    · intro h
      cases hs : o.success
      · simp [Forge.validate_output, hs] at h
      · rfl
    · intro h
      simp [Forge.validate_output, h]
  · intro h
    refine ⟨"Command failed: ", "", ?_⟩
    simp [Forge.validate_output, h]

/-- C1 witness: a concrete failed output; the validator rejects it with a
message embedding its stderr. -/
theorem validate_output_witness :
    (⟨false, "", "boom"⟩ : Forge.Output).success = false ∧
    ∃ pre post, Forge.validate_output ⟨false, "", "boom"⟩
      = Except.error (pre ++ (⟨false, "", "boom"⟩ : Forge.Output).stderr ++ post) :=
  ⟨rfl, (validate_output_success_iff_and_embeds_stderr ⟨false, "", "boom"⟩).2 rfl⟩

/-! ## Claim C2: compression-level mapping totality and fallback -/

/-- C2: each of the three compression-level mappings is total over ordinals
0–4 (listing the full tables), and every u8 ordinal outside 0–4 falls back to
the high-quality tier: `HighQuality`, CRF 23, `/printer`. -/
theorem compression_mapping_total_and_fallback :
    (Forge.CompressionLevel.from_u8 0 = Forge.CompressionLevel.Lossless ∧
     Forge.CompressionLevel.from_u8 1 = Forge.CompressionLevel.NearLossless ∧
     Forge.CompressionLevel.from_u8 2 = Forge.CompressionLevel.HighQuality ∧
     Forge.CompressionLevel.from_u8 3 = Forge.CompressionLevel.MediumQuality ∧
     Forge.CompressionLevel.from_u8 4 = Forge.CompressionLevel.LowQuality) ∧
    (Forge.get_crf_value 0 = 0 ∧ Forge.get_crf_value 1 = 17 ∧
     Forge.get_crf_value 2 = 23 ∧ Forge.get_crf_value 3 = 28 ∧
     Forge.get_crf_value 4 = 35) ∧
    (Forge.get_ghostscript_settings 0 = "/default" ∧
     Forge.get_ghostscript_settings 1 = "/prepress" ∧
     Forge.get_ghostscript_settings 2 = "/printer" ∧
     Forge.get_ghostscript_settings 3 = "/ebook" ∧
     Forge.get_ghostscript_settings 4 = "/screen") ∧
    (∀ level : Nat, level < 256 → 5 ≤ level →
      Forge.CompressionLevel.from_u8 level = Forge.CompressionLevel.HighQuality ∧
      Forge.get_crf_value level = 23 ∧
      Forge.get_ghostscript_settings level = "/printer") := by
  refine ⟨⟨rfl, rfl, rfl, rfl, rfl⟩, ⟨rfl, rfl, rfl, rfl, rfl⟩,
    ⟨rfl, rfl, rfl, rfl, rfl⟩, ?_⟩
  intro level _ h5
  obtain ⟨k, rfl⟩ : ∃ k, level = k + 5 := ⟨level - 5, by omega⟩
  exact ⟨rfl, rfl, rfl⟩

/-- C2 witness: ordinal 7 (a u8 outside 0–4) falls back to the high-quality
tier in all three tables. -/
theorem compression_mapping_fallback_witness :
    Forge.CompressionLevel.from_u8 7 = Forge.CompressionLevel.HighQuality ∧
    Forge.get_crf_value 7 = 23 ∧
    Forge.get_ghostscript_settings 7 = "/printer" :=
  compression_mapping_total_and_fallback.2.2.2 7 (by decide) (by decide)

/-! ## Claim C3: spawn failure vs non-zero exit -/

/-- C3: `FfmpegExecutor::execute` returns an error exactly when the spawn
fails, and that error contains "installed" (tool possibly not installed);
when the tool runs, the captured output is returned as-is, and a non-zero
exit is classified by `validate_output`, whose error carries the captured
stderr. -/
theorem executor_classifies_failures
    (os : Forge.Command → Except String Forge.Output) (args : List String) :
    (∀ e, os (Forge.ffmpeg_invocation args) = Except.error e →
      Forge.FfmpegExecutor.execute os args =
        Except.error ("Failed to execute ffmpeg: " ++ e ++ ". Make sure ffmpeg is installed.") ∧
      ∃ pre post,
        Forge.FfmpegExecutor.execute os args = Except.error (pre ++ "installed" ++ post)) ∧
    (∀ o, os (Forge.ffmpeg_invocation args) = Except.ok o →
      Forge.FfmpegExecutor.execute os args = Except.ok o ∧
      (o.success = false →
        ∃ pre post, Forge.validate_output o = Except.error (pre ++ o.stderr ++ post))) := by
  constructor
  · intro e he
    have hrun : Forge.FfmpegExecutor.execute os args =
        Except.error ("Failed to execute ffmpeg: " ++ e ++ ". Make sure ffmpeg is installed.") := by
      simp [Forge.FfmpegExecutor.execute, he]
    refine ⟨hrun, "Failed to execute ffmpeg: " ++ e ++ ". Make sure ffmpeg is ", ".", ?_⟩
    rw [hrun]
    have htail : ". Make sure ffmpeg is " ++ "installed" ++ "." = ". Make sure ffmpeg is installed." := rfl
    simp only [String.append_assoc]
    rw [← htail]
    simp [String.append_assoc]
  · intro o ho
    refine ⟨by simp [Forge.FfmpegExecutor.execute, ho], ?_⟩
    intro hfail
    exact ⟨"Command failed: ", "", by simp [Forge.validate_output, hfail]⟩

/-- C3 witness: with an OS model whose spawn fails, `execute` reports the
tool-unavailable message; with one that runs the tool to a non-zero exit,
`execute` returns the captured output and the validator embeds its stderr. -/
theorem executor_classifies_failures_witness :
    Forge.FfmpegExecutor.execute (fun _ => Except.error "ENOENT") ["-version"] =
      Except.error ("Failed to execute ffmpeg: " ++ "ENOENT" ++ ". Make sure ffmpeg is installed.") ∧
    Forge.FfmpegExecutor.execute (fun _ => Except.ok ⟨false, "", "bad input"⟩) ["-i", "in.mp4"] =
      Except.ok ⟨false, "", "bad input"⟩ ∧
    ∃ pre post, Forge.validate_output ⟨false, "", "bad input"⟩ =
      Except.error (pre ++ (⟨false, "", "bad input"⟩ : Forge.Output).stderr ++ post) :=
  have h1 := (executor_classifies_failures (fun _ => Except.error "ENOENT") ["-version"]).1
    "ENOENT" rfl
  have h2 := (executor_classifies_failures (fun _ => Except.ok ⟨false, "", "bad input"⟩)
    ["-i", "in.mp4"]).2 ⟨false, "", "bad input"⟩ rfl
  ⟨h1.1, h2.1, h2.2 rfl⟩

/-! ## Claim C6: arguments passed directly, never via a shell -/

/-- C6: the invocation each executor hands to the OS is exactly the tool name
together with the given argument list, each argument its own string in order
(the `Command` model has no shell line to concatenate into); and `execute`
consults the OS at exactly that invocation. -/
theorem executors_pass_args_directly (args : List String) :
    (Forge.ffmpeg_invocation args).program = "ffmpeg" ∧
    (Forge.ffmpeg_invocation args).argv = args ∧
    (Forge.ffprobe_invocation args).program = "ffprobe" ∧
    (Forge.ffprobe_invocation args).argv = args ∧
    (Forge.ghostscript_invocation args).program = "gs" ∧
    (Forge.ghostscript_invocation args).argv = args ∧
    (∀ os osB : Forge.Command → Except String Forge.Output,
      os (Forge.ffmpeg_invocation args) = osB (Forge.ffmpeg_invocation args) →
      Forge.FfmpegExecutor.execute os args = Forge.FfmpegExecutor.execute osB args) := by
  refine ⟨rfl, rfl, rfl, rfl, rfl, rfl, ?_⟩
  intro os osB h
  simp [Forge.FfmpegExecutor.execute, h]

/-- C6 witness: concrete arguments reach the invocation verbatim, and two OS
models agreeing on that single invocation yield the same `execute` result. -/
theorem executors_pass_args_directly_witness :
    (Forge.ffmpeg_invocation ["-i", "a b; rm -rf /", "-y", "out.mp4"]).argv
      = ["-i", "a b; rm -rf /", "-y", "out.mp4"] ∧
    Forge.FfmpegExecutor.execute (fun _ => Except.ok ⟨true, "", ""⟩)
        ["-i", "a b; rm -rf /", "-y", "out.mp4"]
      = Forge.FfmpegExecutor.execute
          (fun c => if c.program = "ffmpeg" then Except.ok ⟨true, "", ""⟩ else Except.error "x")
          ["-i", "a b; rm -rf /", "-y", "out.mp4"] :=
  have h := executors_pass_args_directly ["-i", "a b; rm -rf /", "-y", "out.mp4"]
  ⟨h.2.1, h.2.2.2.2.2.2 _ _ rfl⟩

/-! ## Claim C7: derived output paths -/

/-- C7: whenever the input path has a parent `P` and a stem `S`, the derived
output path is `P ++ "/" ++ S ++ "_" ++ suffix ++ "." ++ E` — for
`generate_output_path` with its given suffix and extension, for
`compress_video` with suffix `"compressed"` and the input's extension `E`
(when present), and for `compress_pdf` with suffix `"compressed"` and
extension `"pdf"`. -/
theorem derived_output_paths (P S E suffix : String) :
    Forge.generate_output_path (some S) (some P) suffix E
      = P ++ "/" ++ S ++ "_" ++ suffix ++ "." ++ E ∧
    Forge.compress_video_output_path (some S) (some E) (some P)
      = P ++ "/" ++ S ++ "_" ++ "compressed" ++ "." ++ E ∧
    Forge.compress_pdf_output_path (some S) (some P)
      = P ++ "/" ++ S ++ "_" ++ "compressed" ++ "." ++ "pdf" := by
  refine ⟨rfl, ?_, ?_⟩
  · show P ++ "/" ++ S ++ "_compressed." ++ E = _
    simp only [String.append_assoc]
    rfl
  · show P ++ "/" ++ S ++ "_compressed.pdf" = _
    simp only [String.append_assoc]
    rfl

/-! ## Claim C5 (corrected): rotation-degree validation -/

/-- C5 counterexample: `rotate_pdf` does not reject an unsupported angle.
With a successfully loaded one-page document and a 45-degree request it
succeeds and writes `Rotate 45` to the page — no explicit error, and the
output is written (saved). -/
theorem rotate_pdf_accepts_unsupported_degrees :
    Forge.rotate_pdf (Except.ok ⟨1⟩) 45 none (Except.ok ())
      = (Except.ok "PDF rotated successfully", [(1, 45)]) := rfl

/-- C5 amended: `rotate_image` and `rotate_image_preview` reject every
degrees value outside {90, 180, 270} with an explicit error before any
output is written (the save/encode step is never reached), but `rotate_pdf`
performs no such validation: on a loaded document with a successful save it
succeeds for any degrees, writing `degrees % 360` (truncated remainder) as
the `Rotate` value. -/
theorem rotation_degree_validation {Img : Type} (openResult : Except String Img)
    (degrees : Int) (rot : Img → Forge.Rotation → Img)
    (save : Img → Except String Unit) (enc : Img → Except String (List Nat))
    (load : Except String Forge.PdfDoc) (pns : Option (List Nat))
    (h90 : degrees ≠ 90) (h180 : degrees ≠ 180) (h270 : degrees ≠ 270) :
    ((Forge.rotate_image openResult degrees rot save).2 = false ∧
     ∃ e, (Forge.rotate_image openResult degrees rot save).1 = Except.error e) ∧
    (∃ e, Forge.rotate_image_preview openResult degrees rot enc = Except.error e) ∧
    (∀ img, openResult = Except.ok img →
      (Forge.rotate_image openResult degrees rot save).1
        = Except.error "Only 90, 180, and 270 degree rotations are supported") ∧
    (∀ doc, load = Except.ok doc →
      (Forge.rotate_pdf load degrees pns (Except.ok ())).1
        = Except.ok "PDF rotated successfully") := by
  have hrot : Forge.rotation_of_degrees degrees
      = Except.error "Only 90, 180, and 270 degree rotations are supported" := by
    simp [Forge.rotation_of_degrees, h90, h180, h270]
  refine ⟨?_, ?_, ?_, ?_⟩
  · cases openResult with
    | error e => exact ⟨rfl, ⟨"Failed to open image: " ++ e, rfl⟩⟩
    | ok img => simp [Forge.rotate_image, hrot]
  · cases openResult with
    | error e => exact ⟨"Failed to open image: " ++ e, rfl⟩
    | ok img =>
      refine ⟨"Only 90, 180, and 270 degree rotations are supported", ?_⟩
      simp [Forge.rotate_image_preview, hrot]
  · intro img h
    subst h
    simp [Forge.rotate_image, hrot]
  · intro doc h
    subst h
    simp [Forge.rotate_pdf]

/-- C5 witness: at 45 degrees with a trivially-open image, `rotate_image`
rejects before saving, the preview rejects, and `rotate_pdf` on a two-page
document succeeds. -/
theorem rotation_degree_validation_witness :
    ((45 : Int) ≠ 90 ∧ (45 : Int) ≠ 180 ∧ (45 : Int) ≠ 270) ∧
    (Forge.rotate_image (Except.ok ()) 45 (fun i _ => i) (fun _ => Except.ok ())).2 = false ∧
    (Forge.rotate_image (Except.ok ()) 45 (fun i _ => i) (fun _ => Except.ok ())).1
      = Except.error "Only 90, 180, and 270 degree rotations are supported" ∧
    (∃ e, Forge.rotate_image_preview (Except.ok ()) 45 (fun i _ => i)
      (fun _ => Except.ok []) = Except.error e) ∧
    (Forge.rotate_pdf (Except.ok ⟨2⟩) 45 none (Except.ok ())).1
      = Except.ok "PDF rotated successfully" :=
  have h := rotation_degree_validation (Except.ok ()) 45 (fun i _ => i)
    (fun _ => Except.ok ()) (fun _ => Except.ok ([] : List Nat)) (Except.ok ⟨2⟩) none
    (by decide) (by decide) (by decide)
  ⟨⟨by decide, by decide, by decide⟩, h.1.1, h.2.2.1 () rfl, h.2.1, h.2.2.2 ⟨2⟩ rfl⟩

/-! ## Claim C4 (corrected): palette cleanup in `video_to_gif` -/

/-- C4 counterexample: when the palette step succeeds but the GIF step exits
with a non-zero status, `video_to_gif` returns the GIF-creation error and the
palette temporary file is NOT removed (the cleanup line is only reached on
full success). -/
theorem video_to_gif_leaves_palette_on_failure :
    (Forge.video_to_gif "in.mp4" "out.gif" none none
        (fun c => Except.ok ⟨c.argv.length == 6, "", "gif step stderr"⟩)).result
      = Except.error ("GIF creation error: " ++ "gif step stderr") ∧
    (Forge.video_to_gif "in.mp4" "out.gif" none none
        (fun c => Except.ok ⟨c.argv.length == 6, "", "gif step stderr"⟩)).paletteRemoved
      = false := ⟨rfl, rfl⟩

/-- Helper for C4: in the `video_to_gif` control flow, the cleanup flag is
set exactly when the success message is returned. -/
theorem gif_outcome_removed_iff (p g : Except String Forge.Output) :
    (Forge.gif_outcome p g).2 = true ↔
    (Forge.gif_outcome p g).1 = Except.ok "Video converted to GIF successfully" := by
  cases p with
  | error e => simp [Forge.gif_outcome]
  | ok pout =>
    cases hp : pout.success with
    | false => simp [Forge.gif_outcome, hp]
    | true =>
      cases g with
      | error e => simp [Forge.gif_outcome, hp]
      | ok gout =>
        cases hg : gout.success with
        | false => simp [Forge.gif_outcome, hp, hg]
        | true => simp [Forge.gif_outcome, hp, hg]

/-- C4 amended: the palette temporary file is removed exactly on the
all-success path — `paletteRemoved` holds iff the operation returns its
success message; on every failure path (spawn failure or non-zero exit of
either ffmpeg step) the palette file is left behind. -/
theorem video_to_gif_palette_removed_iff_success (i o : String)
    (fps width : Option Nat) (run : Forge.Command → Except String Forge.Output) :
    (Forge.video_to_gif i o fps width run).paletteRemoved = true ↔
    (Forge.video_to_gif i o fps width run).result
      = Except.ok "Video converted to GIF successfully" :=
  gif_outcome_removed_iff _ _

/-! ## Claim C10: `video_to_gif` defaults -/

/-- C10: omitting `fps` behaves exactly like passing 10, and omitting `width`
behaves exactly like passing 480 — the entire observable run (result, cleanup
behaviour, both invocations) coincides. -/
theorem video_to_gif_defaults (i o : String) (fps width : Option Nat)
    (run : Forge.Command → Except String Forge.Output) :
    Forge.video_to_gif i o none width run = Forge.video_to_gif i o (some 10) width run ∧
    Forge.video_to_gif i o fps none run = Forge.video_to_gif i o fps (some 480) run :=
  ⟨rfl, rfl⟩

/-! ## Claim C8: `get_video_metadata` never surfaces ffprobe failure -/

/-- Helper for C8: whenever ffprobe is unusable (spawn failure, non-zero
exit, invalid UTF-8 or invalid JSON), the collected metadata map is empty. -/
theorem probe_metadata_empty_of_unusable (probe : Except String Forge.Output)
    (utf8 : String → Option String) (parse : String → Option Forge.Json)
    (h : Forge.ffprobe_unusable probe utf8 parse = true) :
    Forge.probe_metadata probe utf8 parse = [] := by
  cases probe with
  | error e => rfl
  | ok output =>
    cases hs : output.success with
    | false => simp [Forge.probe_metadata, hs]
    | true =>
      cases h8 : utf8 output.stdout with
      | none => simp [Forge.probe_metadata, hs, h8]
      | some json_str =>
        cases hp : parse json_str with
        | none => simp [Forge.probe_metadata, hs, h8, hp]
        | some json =>
          exfalso
          simp [Forge.ffprobe_unusable, hs, h8, hp] at h

/-- C8: `get_video_metadata` returns an error exactly when reading the input
file's filesystem metadata fails (with that error embedded); whenever the
filesystem metadata is readable it succeeds — and if ffprobe could not be
spawned, exited non-zero, or produced unparseable output, the returned
`all_metadata` map is empty. -/
theorem get_video_metadata_error_iff_fs (fsMeta : Except String Forge.FsMeta)
    (probe : Except String Forge.Output) (utf8 : String → Option String)
    (parse : String → Option Forge.Json) :
    (∀ e, fsMeta = Except.error e →
      Forge.get_video_metadata fsMeta probe utf8 parse
        = Except.error ("Failed to get file metadata: " ++ e)) ∧
    (∀ m, fsMeta = Except.ok m →
      ∃ v, Forge.get_video_metadata fsMeta probe utf8 parse = Except.ok v ∧
        v.file_size = m.len ∧
        (Forge.ffprobe_unusable probe utf8 parse = true → v.all_metadata = [])) := by
  constructor
  · intro e he
    subst he
    rfl
  · intro m hm
    subst hm
    refine ⟨_, rfl, rfl, ?_⟩
    intro hu
    exact probe_metadata_empty_of_unusable probe utf8 parse hu

/-- C8 witness: with readable filesystem metadata but a failed ffprobe spawn,
the call succeeds with the file size and an empty metadata map. -/
theorem get_video_metadata_witness :
    ∃ v, Forge.get_video_metadata (Except.ok ⟨123, none, none⟩)
        (Except.error "spawn failed") (fun s => some s) (fun _ => none)
        = Except.ok v ∧ v.file_size = 123 ∧ v.all_metadata = [] := by
  obtain ⟨v, hv, hs, hm⟩ :=
    (get_video_metadata_error_iff_fs (Except.ok ⟨123, none, none⟩)
      (Except.error "spawn failed") (fun s => some s) (fun _ => none)).2
      ⟨123, none, none⟩ rfl
  exact ⟨v, hv, hs, hm rfl⟩

/-! ## Claim C9: `replace_all_text` -/

/-- Helper for C9: the occurrence split never returns an empty list of
pieces. -/
theorem splitOnFind_ne_nil (fh : Char) (ft : List Char) (l : List Char) :
    Forge.splitOnFind fh ft l ≠ [] := by
  cases l with
  | nil => simp [Forge.splitOnFind]
  | cons c rest =>
    rw [Forge.splitOnFind]
    split
    · simp
    · split <;> simp

/-- Helper for C9: the scanning replacement equals "split at the occurrences,
rejoin with the replacement". -/
theorem replaceAux_eq_joinWith_splitOnFind (fh : Char) (ft repl : List Char) :
    ∀ n l, l.length ≤ n →
      Forge.replaceAux fh ft repl l
        = Forge.joinWith repl (Forge.splitOnFind fh ft l) := by
  intro n
  induction n with
  | zero =>
    intro l hl
    have hnil : l = [] := by cases l <;> simp_all
    subst hnil
    simp [Forge.replaceAux, Forge.splitOnFind, Forge.joinWith]
  | succ n ih =>
    intro l hl
    cases l with
    | nil => simp [Forge.replaceAux, Forge.splitOnFind, Forge.joinWith]
    | cons c rest =>
      rw [Forge.replaceAux, Forge.splitOnFind]
      by_cases hc : c :: rest.take ft.length = fh :: ft
      · rw [if_pos hc, if_pos hc]
        rw [ih (rest.drop ft.length) (by simp at hl ⊢; omega)]
        cases hS : Forge.splitOnFind fh ft (rest.drop ft.length) with
        | nil => exact absurd hS (splitOnFind_ne_nil fh ft _)
        | cons g gs => simp [Forge.joinWith]
      · rw [if_neg hc, if_neg hc]
        rw [ih rest (by simp at hl ⊢; omega)]
        cases hS : Forge.splitOnFind fh ft rest with
        | nil => exact absurd hS (splitOnFind_ne_nil fh ft rest)
        | cons g gs =>
          cases gs with
          | nil => simp [Forge.joinWith]
          | cons g2 gs2 => simp [Forge.joinWith]

/-- C9: `replace_all_text` errors exactly on an empty find string, and for a
nonempty find string it succeeds with every leftmost-first non-overlapping
occurrence of the find string replaced (the text split at the occurrences,
rejoined with the replacement). -/
theorem replace_all_text_spec (text find repl : List Char) :
    (Forge.replace_all_text text find repl
        = Except.error "Find string cannot be empty" ↔ find = []) ∧
    (∀ fh ft, find = fh :: ft →
      Forge.replace_all_text text find repl
        = Except.ok (Forge.joinWith repl (Forge.splitOnFind fh ft text))) := by
  constructor
  · cases find with
    | nil => simp [Forge.replace_all_text]
    | cons fh ft => simp [Forge.replace_all_text]
  · intro fh ft hf
    subst hf
    show Except.ok (Forge.rustReplace text (fh :: ft) repl) = _
    rw [Forge.rustReplace,
      replaceAux_eq_joinWith_splitOnFind fh ft repl text.length text (le_refl _)]

/-- C9 witness: replacing `"bc"` by `"X"` in `"abcabc"` succeeds and yields
`"aXaX"`; with the empty find string the call errors. -/
theorem replace_all_text_witness :
    Forge.replace_all_text ['a','b','c','a','b','c'] ['b','c'] ['X']
      = Except.ok (Forge.joinWith ['X']
          (Forge.splitOnFind 'b' ['c'] ['a','b','c','a','b','c'])) ∧
    Forge.joinWith ['X'] (Forge.splitOnFind 'b' ['c'] ['a','b','c','a','b','c'])
      = ['a','X','a','X'] ∧
    (Forge.replace_all_text ['a','b','c','a','b','c'] [] ['X']
        = Except.error "Find string cannot be empty" ↔ ([] : List Char) = []) :=
  ⟨(replace_all_text_spec ['a','b','c','a','b','c'] ['b','c'] ['X']).2 'b' ['c'] rfl,
   by simp [Forge.splitOnFind, Forge.joinWith],
   (replace_all_text_spec ['a','b','c','a','b','c'] [] ['X']).1⟩
